import Mathlib

/-!
Shallow embedding of the conversion core of `src/App.vue` (video2gif): the
worker bootstrap (`initWorker`), file selection (`processFile`), job start
(`startConversion`), the frame-capture loop (`captureFrame`) and the
encoder-facing option record, together with proofs of the spec-level
properties of these operations.

Numeric values are modelled over `ℚ` (exact arithmetic); IEEE-754 rounding of
JavaScript numbers is not modelled.  Browser effects are modelled explicitly:
`URL.createObjectURL` as a tagged non-empty string, `URL.revokeObjectURL` as
an output list of released handles, `alert` as a list of notification
strings derived from the outcome, and `fetch` as a `FetchResult` input value.
-/

namespace Video2Gif

/-- One observable interaction of the capture loop with the GIF encoder:
`addFrame ts delayMs` models `gif.addFrame(ctx, { copy: true, delay:
interval * 1000 })` (App.vue line 182) performed after seeking the video to
timestamp `ts`, and `render` models `gif.render()` (line 168). -/
inductive GifEvent where
  | addFrame (timestamp : ℚ) (delayMs : ℚ)
  | render
deriving DecidableEq

/-- App.vue line 160: `const maxFrames = 300`. -/
def maxFrames : ℕ := 300

/-- The capture loop `captureFrame` of App.vue lines 162-190, as the finite
trace of encoder events it produces.  Loop state: `currentTime` (line 158)
and `frameCount` (line 159); `duration` (line 156) and `interval` (line 157)
are fixed for the run.  The guard of line 164 (`!isProcessing && frameCount >
0 && !resultUrl`) never fires in a single uncancelled run, because
`isProcessing` stays `true` until the encoder's `finished` callback, which
can only run after `render()`; it is therefore omitted from this single-run
model.  Each iteration assumes the awaited `seeked` event of lines 174-179
fires. -/
def captureFrame (duration interval : ℚ) (currentTime : ℚ) (frameCount : ℕ) :
    List GifEvent :=
  if maxFrames ≤ frameCount ∨ duration ≤ currentTime then
    [GifEvent.render]
  else
    GifEvent.addFrame currentTime (interval * 1000) ::
      captureFrame duration interval (currentTime + interval) (frameCount + 1)
termination_by maxFrames - frameCount
decreasing_by
  rename_i h
  rw [not_or] at h
  omega

/-- The loop's stop condition (line 166) as seen from iteration `n`: starting
at `frameCount` frames and time `currentTime`, iteration `n` stops when the
frame counter `frameCount + n` has reached `maxFrames` or the target
timestamp `currentTime + n * interval` has reached `duration`. -/
def stopCond (duration interval currentTime : ℚ) (frameCount n : ℕ) : Prop :=
  maxFrames ≤ frameCount + n ∨ duration ≤ currentTime + (n : ℚ) * interval

instance stopCond.instDecidable (duration interval currentTime : ℚ)
    (frameCount : ℕ) :
    DecidablePred (stopCond duration interval currentTime frameCount) := by
  intro n
  unfold stopCond
  infer_instance

/-- Index of the first loop iteration at which the stop condition holds. -/
def stopIndex (duration interval currentTime : ℚ) (frameCount : ℕ) : ℕ :=
  Nat.find (⟨maxFrames,
    show stopCond duration interval currentTime frameCount maxFrames from
      Or.inl (Nat.le_add_left _ _)⟩ :
    ∃ n, stopCond duration interval currentTime frameCount n)

/-- Timestamps of the frames submitted to the encoder, in submission order. -/
def frameTimestamps : List GifEvent → List ℚ
  | [] => []
  | GifEvent.addFrame ts _ :: rest => ts :: frameTimestamps rest
  | GifEvent.render :: rest => frameTimestamps rest

/-- Number of frames submitted to the encoder in a trace. -/
def addFrameCount (events : List GifEvent) : ℕ := (frameTimestamps events).length

/-- Number of `render()` calls in a trace. -/
def renderCount : List GifEvent → ℕ
  | [] => 0
  | GifEvent.render :: rest => renderCount rest + 1
  | GifEvent.addFrame _ _ :: rest => renderCount rest

/-- App.vue line 157: `const interval = 1 / settings.fps`. -/
def sampleInterval (fps : ℚ) : ℚ := 1 / fps

/-- Target height (App.vue lines 119-121):
`Math.round(width * (videoHeight / videoWidth))`.  Mathlib's `round` is
`⌊x + 1/2⌋`, which agrees with JavaScript's `Math.round`. -/
def computeHeight (width videoHeight videoWidth : ℚ) : ℤ :=
  round (width * (videoHeight / videoWidth))

/-- JavaScript's `String.prototype.startsWith` (App.vue line 75), modelled as
a prefix test on the character sequence. -/
def jsStartsWith (s pre : String) : Bool := pre.data.isPrefixOf s.data

/-- The reactive settings object (App.vue lines 31-35). -/
structure Settings where
  loop : Bool
  width : ℚ
  fps : ℚ
deriving DecidableEq

/-- The reactive refs of App.vue lines 19-28 that the conversion core reads
and writes.  `videoFile` holds the selected file's name (`none` = no file
selected); string refs start empty, mirroring the source's `''` defaults. -/
structure AppState where
  videoFile : Option String
  videoUrl : String
  workerBlobUrl : String
  isProcessing : Bool
  progress : ℕ
  progressText : String
  loadingText : String
  resultUrl : String
  resultSize : String
  settings : Settings
deriving DecidableEq

/-- The state at application start (App.vue lines 19-35). -/
def initialState : AppState :=
  { videoFile := none, videoUrl := "", workerBlobUrl := "", isProcessing := false,
    progress := 0, progressText := "", loadingText := "", resultUrl := "",
    resultSize := "", settings := { loop := true, width := 480, fps := 10 } }

/-- Models `URL.createObjectURL`: an opaque non-empty browser handle, tagged
with the blob's content so distinct blobs get distinct handles. -/
def createObjectURL (blob : String) : String := "blob:" ++ blob

/-- Outcome of the `fetch` of the worker script (App.vue line 47), as observed
by `initWorker`: the promise either rejects (network error) or resolves with
a response carrying its HTTP success flag and body text.  The code never
reads the success flag. -/
inductive FetchResult where
  | networkError
  | response (ok : Bool) (body : String)
deriving DecidableEq

/-- `initWorker` (App.vue lines 44-57), returning the boolean result together
with the updated state.  Line 45 returns `true` at once when `workerBlobUrl`
is already set; otherwise the fetched body is wrapped in a blob whose object
URL is cached.  Only a rejected fetch reaches the `catch` (console.error,
alert, `return false`); a resolved response — successful HTTP status or not —
takes the success path, since neither `response.ok` nor `response.status` is
inspected. -/
def initWorker (fetchResult : FetchResult) (st : AppState) : Bool × AppState :=
  if st.workerBlobUrl ≠ "" then (true, st)
  else
    match fetchResult with
    | FetchResult.networkError => (false, st)
    | FetchResult.response _ body =>
        (true, { st with workerBlobUrl := createObjectURL body })

/-- Number of network fetches a call to `initWorker` from state `st`
performs: the fetch of line 47 runs exactly when the guard of line 45 falls
through. -/
def initWorkerFetchCount (st : AppState) : ℕ :=
  if st.workerBlobUrl = "" then 1 else 0

/-- A selected file as the code sees it: name, declared media type
(`File.type`), byte size. -/
structure MediaFile where
  name : String
  mediaType : String
  size : ℕ
deriving DecidableEq

/-- `processFile` (App.vue lines 74-100), returning the updated state
together with the list of browser handles passed to `URL.revokeObjectURL`,
in call order.  Non-video files are rejected before any mutation (lines
75-78).  The `nextTick` call of lines 95-99 only triggers `load()` on the
DOM video element and is not modelled. -/
def processFile (file : MediaFile) (st : AppState) : AppState × List String :=
  if ¬ jsStartsWith file.mediaType "video/" then (st, [])
  else
    let revokedVideo := if st.videoUrl ≠ "" then [st.videoUrl] else []
    let revokedResult := if st.resultUrl ≠ "" then [st.resultUrl] else []
    let st₁ := if st.resultUrl ≠ "" then { st with resultUrl := "" } else st
    ({ st₁ with
        videoFile := some file.name,
        videoUrl := createObjectURL file.name,
        progress := 0,
        progressText := "" },
      revokedVideo ++ revokedResult)

/-- The option record handed to the `GIF` constructor (App.vue lines
130-138).  `repeatCount` models the record's `repeat` key. -/
structure GifOptions where
  workers : ℕ
  quality : ℕ
  width : ℚ
  height : ℤ
  workerScript : String
  repeatCount : ℤ
  background : String
deriving DecidableEq

/-- The constructor argument built at App.vue lines 130-138; line 136 is
`repeat: settings.loop ? 0 : -1`. -/
def gifOptions (loop : Bool) (width : ℚ) (height : ℤ) (workerScript : String) :
    GifOptions :=
  { workers := 2, quality := 10, width := width, height := height,
    workerScript := workerScript,
    repeatCount := if loop then 0 else -1,
    background := "#fff" }

/-- Browser-environment inputs read by `startConversion`: the fetch outcome
the worker bootstrap would observe (line 47), whether the `GIF` global is
defined (line 111), whether `canvas.getContext('2d')` returns non-null
(line 126), whether `sourceVideoRef` is attached (line 104), and the source
video's metadata (lines 120, 156). -/
structure Env where
  fetchResult : FetchResult
  gifDefined : Bool
  ctxAvailable : Bool
  videoRefAttached : Bool
  videoWidth : ℚ
  videoHeight : ℚ
  duration : ℚ
deriving DecidableEq

/-- How a call to `startConversion` ends. -/
inductive StartOutcome where
  | noVideo
  | workerInitFailed
  | gifLibMissing
  | noContext
  | started (opts : GifOptions) (trace : List GifEvent)
deriving DecidableEq

/-- The user-visible `alert` notifications raised on each outcome: line 54
for a failed bootstrap, line 112 for a missing `GIF` global; the `noVideo`,
`noContext` and `started` paths raise none. -/
def startAlerts : StartOutcome → List String
  | StartOutcome.workerInitFailed => ["初始化组件失败，请检查网络连接"]
  | StartOutcome.gifLibMissing => ["组件尚未加载完成，请稍候..."]
  | _ => []

/-- `startConversion` (App.vue lines 103-194): guards (lines 104-114),
worker bootstrap (105-108), processing flags (116-117), height computation
(119-121), 2D-context acquisition (123-127), the `GIF` constructor options
(130-138) and the capture-loop trace (153-193).  The encoder's
`progress`/`finished` callbacks are modelled separately (`onFinished`). -/
def startConversion (env : Env) (st : AppState) : StartOutcome × AppState :=
  if st.videoFile = none ∨ ¬ env.videoRefAttached then
    (StartOutcome.noVideo, st)
  else
    let boot := if st.workerBlobUrl = "" then initWorker env.fetchResult st
      else (true, st)
    if ¬ boot.1 then (StartOutcome.workerInitFailed, boot.2)
    else if ¬ env.gifDefined then (StartOutcome.gifLibMissing, boot.2)
    else
      let st₂ := { boot.2 with isProcessing := true, loadingText := "正在初始化..." }
      let height := computeHeight st₂.settings.width env.videoHeight env.videoWidth
      if ¬ env.ctxAvailable then (StartOutcome.noContext, st₂)
      else
        let opts := gifOptions st₂.settings.loop st₂.settings.width height
          st₂.workerBlobUrl
        let st₃ := { st₂ with loadingText := "正在捕获视频帧..." }
        (StartOutcome.started opts
          (captureFrame env.duration (sampleInterval st₂.settings.fps) 0 0), st₃)

/-- The final artifact delivered by the encoder's `finished` callback. -/
structure BlobData where
  content : String
  size : ℚ
deriving DecidableEq

/-- The `finished` callback (App.vue lines 146-151): stores a fresh object
URL for the artifact, records its size and clears the processing flags.  The
second component lists the handles passed to `URL.revokeObjectURL` during
the callback — there are none in the source.  The `toFixed(2)` display
formatting of the size is modelled as plain rendering. -/
def onFinished (blob : BlobData) (st : AppState) : AppState × List String :=
  ({ st with
      resultUrl := createObjectURL blob.content,
      resultSize := toString (blob.size / 1024 / 1024),
      isProcessing := false,
      loadingText := "" }, [])

/-- A state with a video selected but no worker prepared. -/
def unpreparedState : AppState :=
  { initialState with videoFile := some "a.mp4", videoUrl := createObjectURL "a.mp4" }

/-- A state with a video selected and the worker prepared. -/
def readyState : AppState :=
  { unpreparedState with workerBlobUrl := "blob:worker" }

/-- A prepared state additionally holding a previous job's result handle. -/
def priorResultState : AppState :=
  { readyState with resultUrl := "blob:prior" }

/-- An environment whose fetch rejects. -/
def envFail : Env :=
  { fetchResult := FetchResult.networkError, gifDefined := true,
    ctxAvailable := true, videoRefAttached := true,
    videoWidth := 1920, videoHeight := 1080, duration := 2 }

/-- An environment where the 2D canvas context is unavailable. -/
def envNoCtx : Env :=
  { envFail with ctxAvailable := false }

/-! ## Lemmas about the capture loop -/

lemma createObjectURL_ne_empty (blob : String) : createObjectURL blob ≠ "" := by
  intro h
  have hl := congrArg String.length h
  rw [createObjectURL, String.length_append] at hl
  have h5 : ("blob:" : String).length = 5 := rfl
  have h0 : ("" : String).length = 0 := rfl
  omega

lemma stopCond_exists (duration interval currentTime : ℚ) (frameCount : ℕ) :
    ∃ n, stopCond duration interval currentTime frameCount n :=
  ⟨maxFrames, Or.inl (Nat.le_add_left _ _)⟩

lemma stopIndex_eq_find (duration interval currentTime : ℚ) (frameCount : ℕ) :
    stopIndex duration interval currentTime frameCount =
      Nat.find (stopCond_exists duration interval currentTime frameCount) := rfl

lemma stopCond_zero (duration interval currentTime : ℚ) (frameCount : ℕ) :
    stopCond duration interval currentTime frameCount 0 ↔
      (maxFrames ≤ frameCount ∨ duration ≤ currentTime) := by
  unfold stopCond
  norm_num

lemma stopCond_succ (duration interval currentTime : ℚ) (frameCount n : ℕ) :
    stopCond duration interval currentTime frameCount (n + 1) ↔
      stopCond duration interval (currentTime + interval) (frameCount + 1) n := by
  have h1 : (maxFrames ≤ frameCount + (n + 1)) ↔ (maxFrames ≤ frameCount + 1 + n) := by
    omega
  have h2 : currentTime + ((n + 1 : ℕ) : ℚ) * interval =
      currentTime + interval + (n : ℚ) * interval := by
    push_cast
    ring
  unfold stopCond
  rw [h1, h2]

lemma stopIndex_succ (duration interval currentTime : ℚ) (frameCount : ℕ)
    (h : ¬ stopCond duration interval currentTime frameCount 0) :
    stopIndex duration interval currentTime frameCount =
      stopIndex duration interval (currentTime + interval) (frameCount + 1) + 1 := by
  rw [stopIndex_eq_find, stopIndex_eq_find, Nat.find_eq_iff]
  refine ⟨?_, ?_⟩
  · rw [stopCond_succ]
    exact Nat.find_spec (stopCond_exists duration interval (currentTime + interval)
      (frameCount + 1))
  · intro m hm
    cases m with
    | zero => exact h
    | succ m' =>
        rw [stopCond_succ]
        exact Nat.find_min (stopCond_exists duration interval (currentTime + interval)
          (frameCount + 1)) (by omega)

lemma stopIndex_le_maxFrames (duration interval currentTime : ℚ) (frameCount : ℕ) :
    stopIndex duration interval currentTime frameCount ≤ maxFrames := by
  rw [stopIndex_eq_find]
  exact Nat.find_min' _ (Or.inl (Nat.le_add_left _ _))

/-- Closed form of the capture loop: the trace is the `addFrame` events of
the first `stopIndex` timestamps followed by the single `render`. -/
lemma captureFrame_closed (duration interval : ℚ) :
    ∀ (fuel : ℕ) (currentTime : ℚ) (frameCount : ℕ),
      maxFrames - frameCount ≤ fuel →
      captureFrame duration interval currentTime frameCount =
        ((List.range (stopIndex duration interval currentTime frameCount)).map
          (fun (n : ℕ) => GifEvent.addFrame (currentTime + (n : ℚ) * interval)
            (interval * 1000))) ++ [GifEvent.render] := by
  intro fuel
  induction fuel with
  | zero =>
      intro t c hc
      have hidx : stopIndex duration interval t c = 0 := by
        rw [stopIndex_eq_find, Nat.find_eq_zero]
        exact Or.inl (by omega)
      rw [captureFrame.eq_def, if_pos (Or.inl (by omega : maxFrames ≤ c)), hidx]
      simp
  | succ fuel ih =>
      intro t c hc
      by_cases h0 : maxFrames ≤ c ∨ duration ≤ t
      · have hidx : stopIndex duration interval t c = 0 := by
          rw [stopIndex_eq_find, Nat.find_eq_zero, stopCond_zero]
          exact h0
        rw [captureFrame.eq_def, if_pos h0, hidx]
        simp
      · have h0' : ¬ stopCond duration interval t c 0 := by
          rw [stopCond_zero]
          exact h0
        have hcm : c < maxFrames := by
          rcases not_or.mp h0 with ⟨h1, _⟩
          omega
        rw [captureFrame.eq_def, if_neg h0, ih (t + interval) (c + 1) (by omega),
          stopIndex_succ duration interval t c h0', List.range_succ_eq_map,
          List.map_cons, List.map_map, List.cons_append]
        congr 1
        · simp
        · congr 1
          refine List.map_congr_left ?_
          intro a _
          simp only [Function.comp_apply]
          congr 1
          push_cast
          ring

/-- The capture loop's trace, started as the source starts it. -/
lemma captureFrame_eq_trace (duration interval currentTime : ℚ) (frameCount : ℕ) :
    captureFrame duration interval currentTime frameCount =
      ((List.range (stopIndex duration interval currentTime frameCount)).map
        (fun (n : ℕ) => GifEvent.addFrame (currentTime + (n : ℚ) * interval)
          (interval * 1000))) ++ [GifEvent.render] :=
  captureFrame_closed duration interval maxFrames currentTime frameCount
    (Nat.sub_le _ _)

lemma frameTimestamps_trace (l : List ℕ) (g : ℕ → ℚ) (d : ℚ) :
    frameTimestamps ((l.map fun n => GifEvent.addFrame (g n) d) ++
        [GifEvent.render]) = l.map g := by
  induction l with
  | nil => rfl
  | cons a t ih => simp [frameTimestamps, ih]

lemma frameTimestamps_captureFrame (duration interval currentTime : ℚ)
    (frameCount : ℕ) :
    frameTimestamps (captureFrame duration interval currentTime frameCount) =
      (List.range (stopIndex duration interval currentTime frameCount)).map
        (fun (n : ℕ) => currentTime + (n : ℚ) * interval) := by
  rw [captureFrame_eq_trace]
  exact frameTimestamps_trace (List.range _)
    (fun (n : ℕ) => currentTime + (n : ℚ) * interval) (interval * 1000)

lemma renderCount_trace (l : List ℕ) (g : ℕ → ℚ) (d : ℚ) :
    renderCount ((l.map fun n => GifEvent.addFrame (g n) d) ++
        [GifEvent.render]) = 1 := by
  induction l with
  | nil => rfl
  | cons a t ih => simpa [renderCount] using ih

/-- The first iteration index at which the loop stops, for the actual start
state `currentTime = 0`, `frameCount = 0` and a positive interval. -/
lemma stopIndex_zero_zero (duration interval : ℚ) (hD : 0 < duration)
    (hi : 0 < interval) :
    stopIndex duration interval 0 0 =
      min maxFrames (Int.toNat ⌈duration / interval⌉) := by
  have hpos : (0 : ℤ) < ⌈duration / interval⌉ :=
    Int.ceil_pos.mpr (div_pos hD hi)
  rw [stopIndex_eq_find, Nat.find_eq_iff]
  constructor
  · rcases le_total maxFrames (Int.toNat ⌈duration / interval⌉) with hle | hle
    · exact Or.inl (by omega)
    · refine Or.inr ?_
      have hmin : min maxFrames (Int.toNat ⌈duration / interval⌉) =
          Int.toNat ⌈duration / interval⌉ := by omega
      rw [hmin, zero_add]
      have hcast : ((Int.toNat ⌈duration / interval⌉ : ℕ) : ℚ) =
          ((⌈duration / interval⌉ : ℤ) : ℚ) := by
        exact_mod_cast congrArg (Int.cast : ℤ → ℚ) (Int.toNat_of_nonneg hpos.le)
      rw [hcast]
      have h1 : duration / interval ≤ ((⌈duration / interval⌉ : ℤ) : ℚ) :=
        Int.le_ceil _
      calc duration = duration / interval * interval := by
            rw [div_mul_cancel₀ _ hi.ne']
        _ ≤ ((⌈duration / interval⌉ : ℤ) : ℚ) * interval :=
            mul_le_mul_of_nonneg_right h1 hi.le
  · intro m hm hstop
    rcases hstop with h | h
    · omega
    · have hm2 : (m : ℤ) < ⌈duration / interval⌉ := by
        have h5 : m < Int.toNat ⌈duration / interval⌉ := by omega
        omega
      have hq : (m : ℚ) < duration / interval := by
        exact_mod_cast Int.lt_ceil.mp hm2
      have h6 : (m : ℚ) * interval < duration := by
        have := (lt_div_iff₀ hi).mp hq
        linarith
      rw [zero_add] at h
      linarith

lemma getLast_append_singleton (l : List GifEvent) (a : GifEvent) :
    (l ++ [a]).getLast? = some a :=
  List.getLast?_concat l

/-! ## Claim theorems -/

/-- Claim C1: for every source duration `D > 0` and sample rate `R > 0`, the
capture loop samples timestamps `0, 1/R, 2/R, …`, pairwise strictly
increasing and each in `[0, D)`, submits them to the encoder in that order,
and the number of frames submitted equals `min(maxFrames, ⌈D·R⌉)`; in
particular any duration `≥ 30` at `R = 10` yields exactly `300` frames. -/
theorem capture_schedule_correct (D R : ℚ) (hD : 0 < D) (hR : 0 < R) :
    frameTimestamps (captureFrame D (sampleInterval R) 0 0) =
        (List.range (min maxFrames (Int.toNat ⌈D * R⌉))).map
          (fun (n : ℕ) => (n : ℚ) / R) ∧
    (frameTimestamps (captureFrame D (sampleInterval R) 0 0)).Pairwise (· < ·) ∧
    (∀ ts ∈ frameTimestamps (captureFrame D (sampleInterval R) 0 0),
      0 ≤ ts ∧ ts < D) ∧
    addFrameCount (captureFrame D (sampleInterval R) 0 0) =
        min maxFrames (Int.toNat ⌈D * R⌉) ∧
    (30 ≤ D → R = 10 →
      addFrameCount (captureFrame D (sampleInterval R) 0 0) = 300) := by
  have hi : 0 < sampleInterval R := by
    rw [sampleInterval]
    positivity
  have hDi : D / sampleInterval R = D * R := by
    rw [sampleInterval, one_div, div_inv_eq_mul]
  have hidx : stopIndex D (sampleInterval R) 0 0 =
      min maxFrames (Int.toNat ⌈D * R⌉) := by
    rw [stopIndex_zero_zero D (sampleInterval R) hD hi, hDi]
  have hts : frameTimestamps (captureFrame D (sampleInterval R) 0 0) =
      (List.range (min maxFrames (Int.toNat ⌈D * R⌉))).map
        (fun (n : ℕ) => (n : ℚ) / R) := by
    rw [frameTimestamps_captureFrame, hidx]
    refine List.map_congr_left ?_
    intro a _
    rw [sampleInterval, zero_add, mul_one_div]
  refine ⟨hts, ?_, ?_, ?_, ?_⟩
  · rw [hts]
    refine List.Pairwise.map _ (fun a b hab => ?_) (List.pairwise_lt_range _)
    have hab' : (a : ℚ) < b := by exact_mod_cast hab
    exact (div_lt_div_iff_of_pos_right hR).mpr hab'
  · rw [hts]
    intro ts hmem
    rcases List.mem_map.mp hmem with ⟨n, hn, rfl⟩
    have hnk : n < min maxFrames (Int.toNat ⌈D * R⌉) := List.mem_range.mp hn
    constructor
    · exact div_nonneg (Nat.cast_nonneg n) hR.le
    · have h1 : (n : ℤ) < ⌈D * R⌉ := by
        have h5 : n < Int.toNat ⌈D * R⌉ := lt_of_lt_of_le hnk (min_le_right _ _)
        omega
      have h2 : (n : ℚ) < D * R := by exact_mod_cast Int.lt_ceil.mp h1
      rw [div_lt_iff₀ hR]
      exact h2
  · rw [addFrameCount, hts, List.length_map, List.length_range]
  · intro h30 hR10
    subst hR10
    rw [addFrameCount, hts, List.length_map, List.length_range]
    have h1 : (300 : ℚ) ≤ D * 10 := by linarith
    have h2 : (300 : ℤ) ≤ ⌈D * 10⌉ := by
      have h3 := Int.le_ceil (D * 10)
      exact_mod_cast h1.trans h3
    have h4 : 300 ≤ Int.toNat ⌈D * 10⌉ := by omega
    have hm : maxFrames = 300 := rfl
    omega

/-- Witness for C1 at `D = 31`, `R = 10`: exactly 300 frames submitted. -/
theorem capture_schedule_witness :
    0 < (31 : ℚ) ∧ 0 < (10 : ℚ) ∧
      addFrameCount (captureFrame 31 (sampleInterval 10) 0 0) = 300 :=
  ⟨by norm_num, by norm_num,
    (capture_schedule_correct 31 10 (by norm_num) (by norm_num)).2.2.2.2
      (by norm_num) rfl⟩

/-- Claim C2, counterexample: a resolved fetch with a non-success HTTP
response is treated as success — from an unprepared state, `initWorker`
returns `true` and caches a worker handle built from the error body, so the
claimed "non-success HTTP response ⟹ reports failure" is false. -/
theorem initWorker_nonsuccess_response_succeeds :
    (initWorker (FetchResult.response false "404: Not Found") unpreparedState).1
        = true ∧
    (initWorker (FetchResult.response false "404: Not Found")
        unpreparedState).2.workerBlobUrl ≠ "" := by
  constructor
  · rfl
  · show createObjectURL "404: Not Found" ≠ ""
    exact createObjectURL_ne_empty _

/-- Claim C2, amended: when `workerBlobUrl` is unset and the fetch rejects
(network error), `initWorker` returns `false` and leaves the state unchanged
— `workerBlobUrl` stays empty, so a later call fetches again — and
`startConversion` does not start a job.  (A non-success HTTP response, by
contrast, is treated as success, since `response.ok` is never inspected; see
the counterexample.) -/
theorem initWorker_failure_amended (env : Env) (st : AppState)
    (hblob : st.workerBlobUrl = "")
    (hfetch : env.fetchResult = FetchResult.networkError) :
    initWorker env.fetchResult st = (false, st) ∧
    (startConversion env st).2.workerBlobUrl = "" ∧
    initWorkerFetchCount (initWorker env.fetchResult st).2 = 1 ∧
    (∀ opts trace, (startConversion env st).1 ≠ StartOutcome.started opts trace)
    := by
  have hiw : initWorker env.fetchResult st = (false, st) := by
    rw [hfetch]
    simp [initWorker, hblob]
  have hsc : startConversion env st = (StartOutcome.noVideo, st) ∨
      startConversion env st = (StartOutcome.workerInitFailed, st) := by
    by_cases hv : st.videoFile = none ∨ ¬ env.videoRefAttached
    · left
      rw [startConversion.eq_def, if_pos hv]
    · right
      rw [startConversion.eq_def, if_neg hv]
      simp [hblob, hiw]
  refine ⟨hiw, ?_, ?_, ?_⟩
  · rcases hsc with h | h <;> rw [h] <;> exact hblob
  · rw [hiw]
    simp [initWorkerFetchCount, hblob]
  · intro opts trace
    rcases hsc with h | h <;> rw [h] <;> simp

/-- Witness for C2 at a concrete unprepared state and a rejecting fetch. -/
theorem initWorker_failure_witness :
    initWorker envFail.fetchResult unpreparedState = (false, unpreparedState) ∧
    (startConversion envFail unpreparedState).2.workerBlobUrl = "" :=
  ⟨(initWorker_failure_amended envFail unpreparedState rfl rfl).1,
   (initWorker_failure_amended envFail unpreparedState rfl rfl).2.1⟩

/-- Claim C3: the loop flag reaches the encoder solely through the single
`repeat` option: `true ↦ 0`, `false ↦ -1`, and the option records built for
the two flag values differ in no other field. -/
theorem repeat_param_encoding (width : ℚ) (height : ℤ) (ws : String) :
    (gifOptions true width height ws).repeatCount = 0 ∧
    (gifOptions false width height ws).repeatCount = -1 ∧
    (∀ loop : Bool, gifOptions loop width height ws =
      { gifOptions true width height ws with
          repeatCount := if loop then 0 else -1 }) := by
  refine ⟨rfl, rfl, ?_⟩
  intro loop
  cases loop <;> rfl

/-- Claim C4: once a call to `initWorker` has succeeded, every later call
returns success immediately with the state unchanged — the cached handle is
never replaced — and performs no fetch; starting unprepared, the succeeding
call is the only one that fetches, so two calls make exactly one fetch. -/
theorem initWorker_idempotent (f₁ f₂ : FetchResult) (st : AppState)
    (hsucc : (initWorker f₁ st).1 = true) :
    initWorker f₂ (initWorker f₁ st).2 = (true, (initWorker f₁ st).2) ∧
    initWorkerFetchCount (initWorker f₁ st).2 = 0 ∧
    (st.workerBlobUrl = "" → initWorkerFetchCount st = 1) ∧
    (initWorker f₁ st).2.workerBlobUrl ≠ "" := by
  by_cases hb : st.workerBlobUrl = ""
  · cases f₁ with
    | networkError =>
        exfalso
        simp [initWorker, hb] at hsucc
    | response ok body =>
        have hpost : (initWorker (FetchResult.response ok body) st).2 =
            { st with workerBlobUrl := createObjectURL body } := by
          simp [initWorker, hb]
        refine ⟨?_, ?_, fun _ => ?_, ?_⟩
        · rw [hpost]
          simp [initWorker, createObjectURL_ne_empty body]
        · rw [hpost]
          simp [initWorkerFetchCount, createObjectURL_ne_empty body]
        · simp [initWorkerFetchCount, hb]
        · rw [hpost]
          simpa using createObjectURL_ne_empty body
  · have hpost : initWorker f₁ st = (true, st) := by
      simp [initWorker, hb]
    rw [hpost]
    refine ⟨?_, ?_, fun h => absurd h hb, hb⟩
    · simp [initWorker, hb]
    · simp [initWorkerFetchCount, hb]

/-- Witness for C4: from the initial state, a successful call followed by a
second call — the second returns success with the state unchanged, and the
prepared state fetches zero times. -/
theorem initWorker_idempotent_witness :
    initWorker (FetchResult.response true "worker-src")
        (initWorker (FetchResult.response true "worker-src") initialState).2 =
      (true, (initWorker (FetchResult.response true "worker-src")
        initialState).2) ∧
    initWorkerFetchCount
        (initWorker (FetchResult.response true "worker-src") initialState).2
      = 0 :=
  ⟨(initWorker_idempotent (FetchResult.response true "worker-src")
      (FetchResult.response true "worker-src") initialState rfl).1,
   (initWorker_idempotent (FetchResult.response true "worker-src")
      (FetchResult.response true "worker-src") initialState rfl).2.1⟩

/-- Claim C5: the capture loop's trace is a block of `addFrame` events
followed by a single final `render`: `render()` is called exactly once, at
the first iteration whose frame counter or target timestamp hits the bound,
and no frame is submitted after it. -/
theorem render_called_once (duration interval : ℚ) :
    renderCount (captureFrame duration interval 0 0) = 1 ∧
    (captureFrame duration interval 0 0).getLast? = some GifEvent.render ∧
    captureFrame duration interval 0 0 =
      ((List.range (stopIndex duration interval 0 0)).map
        (fun (n : ℕ) => GifEvent.addFrame ((n : ℚ) * interval)
          (interval * 1000))) ++ [GifEvent.render] ∧
    (∀ n < stopIndex duration interval 0 0,
      ¬ stopCond duration interval 0 0 n) ∧
    stopCond duration interval 0 0 (stopIndex duration interval 0 0) := by
  have htr' : captureFrame duration interval 0 0 =
      ((List.range (stopIndex duration interval 0 0)).map
        (fun (n : ℕ) => GifEvent.addFrame ((n : ℚ) * interval)
          (interval * 1000))) ++ [GifEvent.render] := by
    rw [captureFrame_eq_trace]
    congr 1
    refine List.map_congr_left ?_
    intro a _
    rw [zero_add]
  refine ⟨?_, ?_, htr', ?_, ?_⟩
  · rw [htr']
    exact renderCount_trace (List.range _) (fun (n : ℕ) => (n : ℚ) * interval)
      (interval * 1000)
  · rw [htr']
    exact getLast_append_singleton _ _
  · intro n hn
    rw [stopIndex_eq_find] at hn
    exact Nat.find_min _ hn
  · rw [stopIndex_eq_find]
    exact Nat.find_spec (stopCond_exists duration interval 0 0)

/-- Witness for C5 at duration 1, interval 1. -/
theorem render_called_once_witness :
    renderCount (captureFrame 1 1 0 0) = 1 ∧
    stopCond 1 1 0 0 (stopIndex 1 1 0 0) :=
  ⟨(render_called_once 1 1).1, (render_called_once 1 1).2.2.2.2⟩

/-- Claim C6: the job's target height is `round(width · videoHeight /
videoWidth)` — rounded to the nearest integer — and a 16:9 source at target
width 480 yields height 270. -/
theorem computeHeight_round (width videoHeight videoWidth : ℚ) :
    computeHeight width videoHeight videoWidth =
      round (width * videoHeight / videoWidth) ∧
    (videoHeight / videoWidth = 9 / 16 →
      computeHeight 480 videoHeight videoWidth = 270) := by
  constructor
  · rw [computeHeight, mul_div_assoc]
  · intro h
    rw [computeHeight, h]
    norm_num [round_eq]

/-- Witness for C6 at a 1920×1080 source and width 480. -/
theorem computeHeight_witness :
    computeHeight 480 1080 1920 = round ((480 : ℚ) * 1080 / 1920) ∧
    computeHeight 480 1080 1920 = 270 :=
  ⟨(computeHeight_round 480 1080 1920).1,
   (computeHeight_round 480 1080 1920).2 (by norm_num)⟩

/-- Claim C7: a file whose declared media type does not start with `video/`
is rejected synchronously with no state change and no handle released; the
media-type prefix is the only gate — any file passing it is accepted and
stored, whatever its other attributes. -/
theorem processFile_rejects_nonvideo (file : MediaFile) (st : AppState) :
    (¬ jsStartsWith file.mediaType "video/" → processFile file st = (st, [])) ∧
    (jsStartsWith file.mediaType "video/" →
      (processFile file st).1.videoFile = some file.name ∧
      (processFile file st).1.videoUrl = createObjectURL file.name) := by
  constructor
  · intro h
    rw [processFile.eq_def, if_pos h]
  · intro h
    rw [processFile.eq_def, if_neg (not_not_intro h)]
    constructor <;> simp

/-- Witness for C7: a `text/plain` file is rejected without state change; a
`video/mp4` file is accepted and stored. -/
theorem processFile_witness :
    processFile { name := "a.txt", mediaType := "text/plain", size := 5 }
        initialState = (initialState, []) ∧
    (processFile { name := "b.mp4", mediaType := "video/mp4", size := 5 }
        initialState).1.videoFile = some "b.mp4" :=
  ⟨(processFile_rejects_nonvideo _ _).1 (by decide),
   ((processFile_rejects_nonvideo _ _).2 (by decide)).1⟩

/-- Claim C8, counterexample: with a prior job's result handle in state, the
encoder's `finished` callback stores a fresh result URL while releasing no
handle — the prior result's object URL (`"blob:prior"`) is not revoked
before the new result is stored, contradicting the claimed release. -/
theorem finished_no_release_counterexample :
    (onFinished { content := "new-gif", size := 2048 } priorResultState).2
        = [] ∧
    (onFinished { content := "new-gif", size := 2048 }
        priorResultState).1.resultUrl = createObjectURL "new-gif" ∧
    priorResultState.resultUrl = "blob:prior" :=
  ⟨rfl, rfl, rfl⟩

/-- Claim C8, amended: browser handles are released only on file
supersession — `processFile` revokes the previous source-media URL and the
previous result URL (in that order) before storing the new file's handle,
and clears the stored result — while the `finished` callback of a new job on
the same file releases nothing, so a prior result handle is then overwritten
without being revoked. -/
theorem release_on_supersede_amended (file : MediaFile) (st : AppState)
    (hvideo : jsStartsWith file.mediaType "video/")
    (hvu : st.videoUrl ≠ "") (hru : st.resultUrl ≠ "") :
    (processFile file st).2 = [st.videoUrl, st.resultUrl] ∧
    (processFile file st).1.resultUrl = "" ∧
    (processFile file st).1.videoUrl = createObjectURL file.name ∧
    (∀ (blob : BlobData) (s : AppState), (onFinished blob s).2 = []) := by
  rw [processFile.eq_def, if_neg (not_not_intro hvideo)]
  refine ⟨?_, ?_, ?_, fun _ _ => rfl⟩ <;> simp [hvu, hru]

/-- Witness for C8: selecting a new video file over a state holding both a
source-media handle and a prior result handle revokes exactly those two. -/
theorem release_on_supersede_witness :
    (processFile { name := "b.mp4", mediaType := "video/mp4", size := 5 }
        priorResultState).2 =
      [priorResultState.videoUrl, priorResultState.resultUrl] :=
  (release_on_supersede_amended
    { name := "b.mp4", mediaType := "video/mp4", size := 5 }
    priorResultState (by decide) (by decide) (by decide)).1

/-- Claim C9: for every user-supplied fps — including zero and negative
values, which are accepted unvalidated — and every duration, the capture
loop terminates (its trace is a finite list ending in `render`) and submits
at most `maxFrames = 300` frames: the frame-counter disjunct alone bounds
the loop, whatever the timestamp does. -/
theorem capture_loop_bounded (fps duration : ℚ) :
    addFrameCount (captureFrame duration (sampleInterval fps) 0 0)
        ≤ maxFrames ∧
    (captureFrame duration (sampleInterval fps) 0 0).getLast?
        = some GifEvent.render := by
  constructor
  · rw [addFrameCount, frameTimestamps_captureFrame, List.length_map,
      List.length_range]
    exact stopIndex_le_maxFrames _ _ _ _
  · rw [captureFrame_eq_trace]
    exact getLast_append_singleton _ _

/-- Claim C10: when the 2D context is unavailable but all earlier guards
pass, `startConversion` returns early with `isProcessing` already set and
the initializing message in place — no job started, no frame submitted, no
alert raised; the error path does not restore the pre-call state. -/
theorem noContext_leaves_processing (env : Env) (st : AppState)
    (hfile : st.videoFile ≠ none) (href : env.videoRefAttached = true)
    (hblob : st.workerBlobUrl ≠ "") (hgif : env.gifDefined = true)
    (hctx : env.ctxAvailable = false) :
    (startConversion env st).1 = StartOutcome.noContext ∧
    (startConversion env st).2.isProcessing = true ∧
    (startConversion env st).2.loadingText = "正在初始化..." ∧
    startAlerts (startConversion env st).1 = [] ∧
    (∀ opts trace, (startConversion env st).1 ≠ StartOutcome.started opts trace)
    := by
  have hcond : ¬ (st.videoFile = none ∨ ¬ env.videoRefAttached) := by
    simp [hfile, href]
  have hsc : startConversion env st =
      (StartOutcome.noContext,
        { st with isProcessing := true, loadingText := "正在初始化..." }) := by
    rw [startConversion.eq_def, if_neg hcond]
    simp [hblob, hgif, hctx]
  rw [hsc]
  refine ⟨rfl, rfl, rfl, rfl, ?_⟩
  intro opts trace h
  exact StartOutcome.noConfusion h

/-- Witness for C10 at a prepared state and a context-less environment. -/
theorem noContext_witness :
    (startConversion envNoCtx readyState).1 = StartOutcome.noContext ∧
    (startConversion envNoCtx readyState).2.isProcessing = true :=
  ⟨(noContext_leaves_processing envNoCtx readyState (by decide) rfl (by decide)
      rfl rfl).1,
   (noContext_leaves_processing envNoCtx readyState (by decide) rfl (by decide)
      rfl rfl).2.1⟩

end Video2Gif
